import Mathlib

/-!
Verification development for the Duda billing-reconciliation engine.

The definitions below are a shallow embedding of the Python sources:
`utils.py`, `file_processor.py`, `data_analyzer.py` and `api_verifier.py`.
Conventions used throughout the embedding:

* pandas cells that may be missing (`NaN` / `None`) are modelled as
  `Option String`; `none` stands for a missing value.  Python's `str(x)`
  on such a cell yields the literal string `"nan"`, modelled by `pyStr`.
* `datetime.now()` is modelled by an explicit parameter `now`, a timestamp
  in microseconds since 1970-01-01 (proleptic Gregorian); parsed dates are
  converted to the same scale, and `timedelta.days` is floor division by
  the number of microseconds in a day, matching Python semantics.
* `str.lower()` is modelled on the ASCII range (`Char.toLower`), which
  agrees with Python for every keyword literal appearing in the sources.
-/

set_option maxHeartbeats 1000000
set_option maxRecDepth 8000

namespace Duda

/-- Boolean infix test on character lists. -/
def isInfixB (p : List Char) : List Char → Bool
  | [] => p.isEmpty
  | c :: t => p.isPrefixOf (c :: t) || isInfixB p t

/-- Substring test on strings; models Python's `needle in haystack` and
pandas `.str.contains` with an escaped (literal) pattern. -/
def strContains (hay needle : String) : Bool :=
  isInfixB needle.data hay.data

/-- Suffix test on strings, used to state "problem type ends in …". -/
def strEndsWith (s suffix : String) : Bool :=
  suffix.data.isSuffixOf s.data

/-- Lower-casing of all characters; models `str.lower()` (the sources only
compare against ASCII keyword literals, where `Char.toLower` agrees with
Python). -/
def lowerStr (s : String) : String :=
  ⟨s.data.map Char.toLower⟩

/-- Whitespace stripping on character lists (Python `str.strip()`). -/
def stripList (l : List Char) : List Char :=
  ((l.dropWhile Char.isWhitespace).reverse.dropWhile Char.isWhitespace).reverse

/-- Python `str.strip()`. -/
def pyStrip (s : String) : String :=
  ⟨stripList s.data⟩

/-- Python `str(x)` applied to a possibly missing cell: a missing value
(`NaN`) renders as the literal string `"nan"`. -/
def pyStr : Option String → String
  | none => "nan"
  | some s => s

/-- Missing-URL test used by `file_processor.py`: the cell is `NaN`, the
empty string, or the literal string `"nan"`. -/
def urlMissing : Option String → Bool
  | none => true
  | some s => s = "" || s = "nan"

/-! ### Date handling (`utils.days_since_date`)

`days_since_date` tries a fixed list of `strptime` formats in order and
returns `(datetime.now() - parsed).days`.  The parsers below reproduce
CPython's `strptime` field regexes: `%Y` is exactly four digits, `%m`/`%d`
are one or two digits restricted to the calendar ranges, `%H` to `0..23`,
`%M`/`%S` to `0..59` and `%f` is one to six digits padded on the right to
microseconds; after the regex match the `datetime` constructor validates
the day against the month length (leap years included). -/

/-- Numeric value of a decimal digit character. -/
def digitVal (c : Char) : Nat := c.toNat - '0'.toNat

/-- Parses a one- or two-digit numeric field.  `valid2` is the value range
of the two-digit spelling, `valid1` the range of the one-digit spelling,
matching the ordered alternatives in CPython's `_strptime.TimeRE`. -/
def read2Field (valid2 valid1 : Nat → Bool) : List Char → Option (Nat × List Char)
  | c1 :: c2 :: rest =>
    if c1.isDigit then
      if c2.isDigit then
        let v := digitVal c1 * 10 + digitVal c2
        if valid2 v then some (v, rest) else none
      else
        let v := digitVal c1
        if valid1 v then some (v, c2 :: rest) else none
    else none
  | [c1] =>
    if c1.isDigit && valid1 (digitVal c1) then some (digitVal c1, []) else none
  | [] => none

/-- Parses `%Y`: exactly four digits. -/
def readYear4 : List Char → Option (Nat × List Char)
  | c1 :: c2 :: c3 :: c4 :: rest =>
    if c1.isDigit && c2.isDigit && c3.isDigit && c4.isDigit then
      some (((digitVal c1 * 10 + digitVal c2) * 10 + digitVal c3) * 10 + digitVal c4, rest)
    else none
  | _ => none

/-- Consumes one expected literal character. -/
def expectChar (c : Char) : List Char → Option (List Char)
  | x :: rest => if x = c then some rest else none
  | [] => none

/-- Parses `%m` (month, `1..12`). -/
def readMonthField : List Char → Option (Nat × List Char) :=
  read2Field (fun v => 1 ≤ v && v ≤ 12) (fun v => 1 ≤ v)

/-- Parses `%d` (day, `1..31`). -/
def readDayField : List Char → Option (Nat × List Char) :=
  read2Field (fun v => 1 ≤ v && v ≤ 31) (fun v => 1 ≤ v)

/-- Parses `%H` (hour, `0..23`). -/
def readHourField : List Char → Option (Nat × List Char) :=
  read2Field (fun v => v ≤ 23) (fun _ => true)

/-- Parses `%M` or `%S` (`0..59`). -/
def readMinSecField : List Char → Option (Nat × List Char) :=
  read2Field (fun v => v ≤ 59) (fun _ => true)

/-- Parses `%f`: one to six digits, right-padded to microseconds. -/
def readMicros (l : List Char) : Option (Nat × List Char) :=
  let ds := (l.takeWhile Char.isDigit).take 6
  if ds.isEmpty then none
  else
    some (ds.foldl (fun a c => a * 10 + digitVal c) 0 * 10 ^ (6 - ds.length),
          l.drop ds.length)

/-- Length of a Gregorian month, with leap-year rule. -/
def daysInMonth (y m : Nat) : Nat :=
  if m = 2 then
    if y % 4 = 0 && (y % 100 ≠ 0 || y % 400 = 0) then 29 else 28
  else if m = 4 || m = 6 || m = 9 || m = 11 then 30 else 31

/-- Days from 1970-01-01 to the given proleptic-Gregorian civil date
(Hinnant's `days_from_civil`); `y ≥ 1` in every use. -/
def civilDays (y m d : Nat) : Int :=
  let y' := if m ≤ 2 then y - 1 else y
  let era := y' / 400
  let yoe := y' % 400
  let mp := if m ≤ 2 then m + 9 else m - 3
  let doy := (153 * mp + 2) / 5 + d - 1
  let doe := yoe * 365 + yoe / 4 - yoe / 100 + doy
  (era * 146097 + doe : Nat) - (719468 : Int)

/-- Parsed `datetime` value. -/
structure PyDateTime where
  year : Nat
  month : Nat
  day : Nat
  hour : Nat
  minute : Nat
  second : Nat
  micro : Nat
deriving Repr, DecidableEq

/-- Timestamp of a `datetime` in microseconds since 1970-01-01. -/
def dtMicros (t : PyDateTime) : Int :=
  civilDays t.year t.month t.day * 86400000000 +
    (((t.hour * 3600 + t.minute * 60 + t.second) * 1000000 + t.micro : Nat) : Int)

/-- The `datetime` constructor's validation: year in `1..9999`, month in
`1..12`, day within the month's length. -/
def mkDateTime (y m d hh mi ss f : Nat) : Option PyDateTime :=
  if 1 ≤ y && y ≤ 9999 && 1 ≤ m && m ≤ 12 && 1 ≤ d && d ≤ daysInMonth y m then
    some ⟨y, m, d, hh, mi, ss, f⟩
  else none

/-- Parses `%Y-%m-%d`, returning the remaining input. -/
def parseYMD (l : List Char) : Option (Nat × Nat × Nat × List Char) := do
  let (y, l1) ← readYear4 l
  let l2 ← expectChar '-' l1
  let (m, l3) ← readMonthField l2
  let l4 ← expectChar '-' l3
  let (d, l5) ← readDayField l4
  pure (y, m, d, l5)

/-- Parses `%m/%d/%Y`, returning the remaining input. -/
def parseMDY (l : List Char) : Option (Nat × Nat × Nat × List Char) := do
  let (m, l1) ← readMonthField l
  let l2 ← expectChar '/' l1
  let (d, l3) ← readDayField l2
  let l4 ← expectChar '/' l3
  let (y, l5) ← readYear4 l4
  pure (y, m, d, l5)

/-- Parses `%d.%m.%Y`, returning the remaining input. -/
def parseDMY (l : List Char) : Option (Nat × Nat × Nat × List Char) := do
  let (d, l1) ← readDayField l
  let l2 ← expectChar '.' l1
  let (m, l3) ← readMonthField l2
  let l4 ← expectChar '.' l3
  let (y, l5) ← readYear4 l4
  pure (y, m, d, l5)

/-- Parses `%H:%M:%S`, returning the remaining input. -/
def parseHMS (l : List Char) : Option (Nat × Nat × Nat × List Char) := do
  let (hh, l1) ← readHourField l
  let l2 ← expectChar ':' l1
  let (mi, l3) ← readMinSecField l2
  let l4 ← expectChar ':' l3
  let (ss, l5) ← readMinSecField l4
  pure (hh, mi, ss, l5)

/-- Completes a date-only format: the whole input must be consumed and the
date must pass `datetime` validation. -/
def finishDate (p : List Char → Option (Nat × Nat × Nat × List Char)) (l : List Char) :
    Option Int := do
  let (y, m, d, rest) ← p l
  guard (rest = [])
  let t ← mkDateTime y m d 0 0 0 0
  pure (dtMicros t)

/-- Completes a date-and-time format `<date><sep>%H:%M:%S`. -/
def finishDateTime (p : List Char → Option (Nat × Nat × Nat × List Char)) (sep : Char)
    (l : List Char) : Option Int := do
  let (y, m, d, r1) ← p l
  let r2 ← expectChar sep r1
  let (hh, mi, ss, r3) ← parseHMS r2
  guard (r3 = [])
  let t ← mkDateTime y m d hh mi ss 0
  pure (dtMicros t)

/-- Completes the ISO format with fraction `%Y-%m-%dT%H:%M:%S.%f`. -/
def finishISOFrac (l : List Char) : Option Int := do
  let (y, m, d, r1) ← parseYMD l
  let r2 ← expectChar 'T' r1
  let (hh, mi, ss, r3) ← parseHMS r2
  let r4 ← expectChar '.' r3
  let (f, r5) ← readMicros r4
  guard (r5 = [])
  let t ← mkDateTime y m d hh mi ss f
  pure (dtMicros t)

/-- Removes every `Z`, modelling `date_str.replace('Z', '')` as applied to
the two ISO formats whose pattern contains a `Z`. -/
def removeZ (l : List Char) : List Char := l.filter (· ≠ 'Z')

/-- Tries the nine `strptime` formats of `days_since_date` in source order;
first success wins. -/
def parseDateValue (s : String) : Option Int :=
  let l := s.data
  let lz := removeZ l
  (finishDate parseYMD l) <|>
  (finishDate parseMDY l) <|>
  (finishDate parseDMY l) <|>
  (finishDateTime parseYMD ' ' l) <|>
  (finishDateTime parseMDY ' ' l) <|>
  (finishDateTime parseDMY ' ' l) <|>
  (finishISOFrac lz) <|>
  (finishDateTime parseYMD 'T' lz) <|>
  (finishDateTime parseYMD 'T' l)

/-- Embedding of `utils.days_since_date`: `None`/empty/`"nan"` and
unparseable inputs yield `none`; otherwise the result is
`(now - parsed).days` with Python's floor semantics. -/
def days_since_date (now : Int) (dateValue : Option String) : Option Int :=
  match dateValue with
  | none => none
  | some s0 =>
    let s := pyStrip s0
    if s = "" || s = "nan" then none
    else
      match parseDateValue s with
      | none => none
      | some ts => some (Int.fdiv (now - ts) 86400000000)

/-! ### Product classification (`utils.categorize_charge_frequency`) -/

/-- Embedding of `utils.categorize_charge_frequency`. -/
def categorize_charge_frequency (chargeFrequency : Option String) : String :=
  match chargeFrequency with
  | none => "Unbekannt"
  | some cf =>
    let f := lowerStr cf
    if strContains f "dudaone monthly" then "Lizenz"
    else if strContains f "ecom" || strContains f "store" then "Shop"
    else if strContains f "cookiebot" then "CCB"
    else if strContains f "audioeye" then "AudioEye"
    else if strContains f "paperform" then "Paperform"
    else if strContains f "rss" || strContains f "social" then "RSS/Social"
    else if strContains f "sitesearch" then "SiteSearch"
    else if strContains f "book like a boss" then "BookingTool"
    else if strContains f "ivr" then "IVR"
    else "Apps"

/-- Embedding of `utils.is_app_product`. -/
def is_app_product (productType : String) : Bool :=
  ["CCB", "AudioEye", "Paperform", "RSS/Social",
   "SiteSearch", "BookingTool", "IVR", "Apps"].contains productType

/-! ### Status policy (`DataAnalyzer.is_status_ok`) -/

/-- Embedding of `DataAnalyzer.is_status_ok`.  A missing status is not OK;
a status containing "website online" is always OK; a status containing
"offline" or "gekündigt" is OK only when the unpublication date is present
(truthy and not `NaN`) and parses to at most 31 days before `now`. -/
def is_status_ok (now : Int) (status : Option String) (unpublicationDate : Option String) :
    Bool :=
  match status with
  | none => false
  | some st =>
    let s := lowerStr st
    if strContains s "website online" then true
    else if strContains s "offline" || strContains s "gekündigt" then
      match unpublicationDate with
      | none => false
      | some u =>
        if u = "" then false
        else
          match days_since_date now (some u) with
          | some d => decide (d ≤ 31)
          | none => false
    else false

example : days_since_date (dtMicros ⟨2024, 7, 2, 0, 0, 0, 0⟩) (some "2024-06-01") = some 31 := by
  decide

example : days_since_date (dtMicros ⟨2024, 7, 3, 0, 0, 0, 0⟩) (some "2024-06-01") = some 32 := by
  decide

example : days_since_date (dtMicros ⟨2024, 7, 3, 0, 0, 0, 0⟩) (some "06/01/2024") = some 32 := by
  decide

example : days_since_date (dtMicros ⟨2024, 7, 3, 0, 0, 0, 0⟩) (some "01.06.2024") = some 32 := by
  decide

example :
    days_since_date (dtMicros ⟨2024, 7, 2, 0, 0, 0, 0⟩)
      (some "2024-06-01T10:20:30.500Z") = some 30 := by
  decide

example : days_since_date (dtMicros ⟨2024, 7, 2, 0, 0, 0, 0⟩) (some "2024-02-30") = none := by
  decide

example : days_since_date (dtMicros ⟨2024, 7, 2, 0, 0, 0, 0⟩) (some "nan") = none := by
  decide

example :
    is_status_ok (dtMicros ⟨2024, 7, 2, 0, 0, 0, 0⟩) (some "Projekt offline")
      (some "2024-06-01") = true := by
  decide

example :
    is_status_ok (dtMicros ⟨2024, 7, 3, 0, 0, 0, 0⟩) (some "Projekt offline")
      (some "2024-06-01") = false := by
  decide

example : categorize_charge_frequency (some "DudaOne Monthly") = "Lizenz" := by decide

example : categorize_charge_frequency none = "Unbekannt" := by decide

example : categorize_charge_frequency (some "") = "Apps" := by decide

/-! ### Data model

`DudaRow` is one retained row of the billing table as produced by
`FileProcessor.load_duda_file` ("Site Alias" forced to string, "Should
Charge" converted to an integer).  Columns other than the five used by the
engine are collected in `rest` and are never inspected.  `CrmRow` is one
row of the canonical CRM table produced by `FileProcessor.load_crm_file`;
its "Domain" and "Workflow-Status" cells may be missing. -/

structure DudaRow where
  siteAlias : String
  siteURL : Option String
  chargeFrequency : Option String
  unpublicationDate : Option String
  shouldCharge : Int
  rest : List (Option String)
deriving Repr, DecidableEq

structure CrmRow where
  siteIdDuda : String
  workflowStatus : Option String
  domain : Option String
  projektname : Option String
  landingpageId : Option String
deriving Repr, DecidableEq

/-! ### Domain extraction (`utils.extract_domain`) -/

/-- Returns the text after the first `://`, or `none` when absent
(approximating `urlparse(...).netloc` for scheme-carrying URLs). -/
def afterSchemeSep : List Char → Option (List Char)
  | [] => none
  | c :: t =>
    if [':', '/', '/'].isPrefixOf (c :: t) then some ((c :: t).drop 3)
    else afterSchemeSep t

/-- Embedding of `utils.extract_domain`: normalise the URL (prepend
`https://` when no `http` prefix), take the network location, lower-case
it and strip a leading `www.`. -/
def extract_domain (url : String) : String :=
  if url = "" || url = "nan" then ""
  else
    let u0 := pyStrip url
    let u1 := if "http".data.isPrefixOf u0.data then u0 else "https://" ++ u0
    let netloc :=
      match afterSchemeSep u1.data with
      | some r => r.takeWhile (fun c => c ≠ '/' && c ≠ '?' && c ≠ '#')
      | none => []
    let d := netloc.map Char.toLower
    ⟨if "www.".data.isPrefixOf d then d.drop 4 else d⟩

/-! ### Identifier repair (`FileProcessor.fix_scientific_notation_ids`)

The canonical CRM table always carries a "Domain" column (the normalizer
creates it, possibly empty), so the source's fallback branch for a missing
"Domain" column is not modelled. -/

/-- The scientific-notation detector: the regex `[eE][+-]`. -/
def sciMatch (s : String) : Bool :=
  strContains s "e+" || strContains s "e-" || strContains s "E+" || strContains s "E-"

/-- The per-row id rewrite: a row whose "Site Alias" equals `x` receives
the repaired id. -/
def rwFun (x correct : String) (r : DudaRow) : DudaRow :=
  if r.siteAlias = x then { r with siteAlias := correct } else r

/-- Rewrites all rows whose "Site Alias" equals `x` to the repaired id. -/
def rewriteAlias (x correct : String) (t : List DudaRow) : List DudaRow :=
  t.map (rwFun x correct)

/-- The per-row URL backfill: a row carrying the repaired id with a
missing URL receives the repair's URL. -/
def bfFun (correct url : String) (r : DudaRow) : DudaRow :=
  if r.siteAlias = correct && urlMissing r.siteURL then { r with siteURL := some url }
  else r

/-- Backfills the "Site URL" of rows that carry the repaired id but have a
missing URL. -/
def backfillURL (correct url : String) (t : List DudaRow) : List DudaRow :=
  t.map (bfFun correct url)

/-- Strategy 1 donor: the first row with the same corrupted id and a
usable "Site URL". -/
def donorFor (t : List DudaRow) (x : String) : Option DudaRow :=
  t.find? fun r => r.siteAlias = x && !urlMissing r.siteURL

/-- The URL used for repairing corrupted id `x`: the row's own URL, or for
an App-type row with no usable URL the URL borrowed from a donor row. -/
def repairSiteURL (t : List DudaRow) (x : String) (row : DudaRow) : String :=
  let u := pyStrip (pyStr row.siteURL)
  let ptype := categorize_charge_frequency row.chargeFrequency
  if is_app_product ptype && (u = "" || u = "nan") then
    match donorFor t x with
    | some donor => pyStrip (pyStr donor.siteURL)
    | none => u
  else u

/-- Strategy 2: derive the domain from the usable URL and search the CRM
table for it (case-insensitive literal substring).  Returns the corrected
id and the URL used when exactly one CRM row matches. -/
def attemptRepair (crm : List CrmRow) (t : List DudaRow) (row : DudaRow) :
    Option (String × String) :=
  let x := pyStrip row.siteAlias
  let u := repairSiteURL t x row
  if u = "" || u = "nan" then none
  else
    match crm.filter (fun c =>
        strContains (lowerStr (pyStr c.domain)) (lowerStr (extract_domain u))) with
    | [c] => some (pyStrip c.siteIdDuda, u)
    | _ => none

/-- One iteration of the repair loop: skip ids repaired earlier, otherwise
attempt the repair and on success rewrite all rows carrying the corrupted
id and backfill missing sibling URLs. -/
def stepRepair (crm : List CrmRow) (st : List DudaRow × List String) (row : DudaRow) :
    List DudaRow × List String :=
  let x := pyStrip row.siteAlias
  if st.2.contains x then st
  else
    match attemptRepair crm st.1 row with
    | some (correct, u) => (backfillURL correct u (rewriteAlias x correct st.1), x :: st.2)
    | none => st

/-- Embedding of `FileProcessor.fix_scientific_notation_ids`: snapshot the
rows matching the scientific-notation pattern, then process them in order
against the evolving table. -/
def fix_scientific_notation_ids (duda : List DudaRow) (crm : List CrmRow) :
    List DudaRow :=
  let snap := duda.filter fun r => sciMatch r.siteAlias
  if snap.isEmpty then duda
  else (snap.foldl (stepRepair crm) (duda, [])).1

/-! ### Policy engine (`DataAnalyzer`) -/

/-- The "Produkttyp" column added in `DataAnalyzer.__init__`: the product
category of the row's "Charge Frequency". -/
def produkttyp (r : DudaRow) : String :=
  categorize_charge_frequency r.chargeFrequency

/-- Missing-unpublication-date test used by `find_issues`: `NaN`, or a
string that strips to empty or `"nan"`. -/
def unpubMissing : Option String → Bool
  | none => true
  | some s => pyStrip s = "" || pyStrip s = "nan"

/-- First sibling row with the same (stripped) alias and product type
"Lizenz". -/
def licenseMatch (duda : List DudaRow) (siteAlias : String) : Option DudaRow :=
  duda.find? fun r => r.siteAlias = siteAlias && produkttyp r = "Lizenz"

/-- For App-type rows with a missing unpublication date, fall back to the
sibling License row's unpublication date when that one is usable. -/
def effectiveUnpub (duda : List DudaRow) (siteAlias ptype : String)
    (unpub : Option String) : Option String :=
  if is_app_product ptype && unpubMissing unpub then
    match licenseMatch duda siteAlias with
    | some lic =>
      if !unpubMissing lic.unpublicationDate then lic.unpublicationDate else unpub
    | none => unpub
  else unpub

/-- One flagged entry of `find_issues` (field names follow the source's
dict keys). -/
structure Issue where
  site_Alias : String
  site_URL : Option String
  produkttyp : String
  charge_Frequency : Option String
  crm_Status : Option String
  projektname : Option String
  problem_Typ : String
  unpublish_Tage : Option Int
deriving Repr, DecidableEq

/-- Models `days_since_date(unpub) if unpub else None`: Python truthiness
makes `None` and the empty string skip the computation. -/
def truthyDays (now : Int) : Option String → Option Int
  | none => none
  | some s => if s = "" then none else days_since_date now (some s)

/-- One iteration of the `find_issues` loop: the issue produced for a
billing row, if any.  `duda` is the analyzer's (repaired) table that the
sibling-license searches run against. -/
def issueForRow (now : Int) (duda : List DudaRow) (crm : List CrmRow) (row : DudaRow) :
    Option Issue :=
  let siteAlias := pyStrip row.siteAlias
  let ptype := produkttyp row
  let unpub := effectiveUnpub duda siteAlias ptype row.unpublicationDate
  match crm.find? (fun c => c.siteIdDuda = siteAlias) with
  | none =>
    some { site_Alias := siteAlias, site_URL := row.siteURL, produkttyp := ptype,
           charge_Frequency := row.chargeFrequency, crm_Status := some "Nicht gefunden",
           projektname := some "Nicht gefunden", problem_Typ := "Site nicht im CRM",
           unpublish_Tage := truthyDays now unpub }
  | some crmRow =>
    if is_status_ok now crmRow.workflowStatus unpub then none
    else if is_app_product ptype then
      match licenseMatch duda siteAlias with
      | some lic =>
        if is_status_ok now crmRow.workflowStatus lic.unpublicationDate then none
        else
          some { site_Alias := siteAlias, site_URL := row.siteURL, produkttyp := ptype,
                 charge_Frequency := row.chargeFrequency,
                 crm_Status := crmRow.workflowStatus, projektname := crmRow.projektname,
                 problem_Typ := ptype ++ " ohne Website online",
                 unpublish_Tage := truthyDays now unpub }
      | none =>
        some { site_Alias := siteAlias, site_URL := row.siteURL, produkttyp := ptype,
               charge_Frequency := row.chargeFrequency,
               crm_Status := crmRow.workflowStatus, projektname := crmRow.projektname,
               problem_Typ := ptype ++ " keine zugehörige Lizenz gefunden",
               unpublish_Tage := truthyDays now unpub }
    else
      some { site_Alias := siteAlias, site_URL := row.siteURL, produkttyp := ptype,
             charge_Frequency := row.chargeFrequency,
             crm_Status := crmRow.workflowStatus, projektname := crmRow.projektname,
             problem_Typ := "Abweichender Workflow-Status",
             unpublish_Tage := truthyDays now unpub }

/-- The analyzer's working table: `__init__` repairs the billing table
before any analysis. -/
def analyzerTable (duda : List DudaRow) (crm : List CrmRow) : List DudaRow :=
  fix_scientific_notation_ids duda crm

/-- Embedding of `DataAnalyzer.find_issues` (with `now` the run's clock
passed explicitly). -/
def find_issues (now : Int) (duda : List DudaRow) (crm : List CrmRow) : List Issue :=
  let t := analyzerTable duda crm
  t.filterMap (issueForRow now t crm)

/-- Distinct values in first-occurrence order (pandas `Series.unique`). -/
def firstUniquesAux (seen : List String) : List String → List String
  | [] => []
  | a :: l =>
    if a ∈ seen then firstUniquesAux seen l
    else a :: firstUniquesAux (a :: seen) l

/-- Distinct values of a list in first-occurrence order. -/
def firstUniques (l : List String) : List String :=
  firstUniquesAux [] l

/-- Per-product-type entry of the summary's breakdown. -/
structure BreakdownEntry where
  ptype : String
  total : Int
  ok : Int
  issues : Int
deriving Repr, DecidableEq

/-- The summary produced by `DataAnalyzer.get_summary`. -/
structure Summary where
  total_charged : Int
  ok_count : Int
  issues_count : Int
  product_breakdown : List BreakdownEntry
deriving Repr, DecidableEq

/-- Embedding of `DataAnalyzer.get_summary`. -/
def get_summary (now : Int) (duda : List DudaRow) (crm : List CrmRow) : Summary :=
  let t := analyzerTable duda crm
  let issues := find_issues now duda crm
  let total : Int := t.length
  let icount : Int := issues.length
  { total_charged := total, ok_count := total - icount, issues_count := icount,
    product_breakdown :=
      (firstUniques (t.map produkttyp)).map fun p =>
        let ptotal : Int := (t.filter fun r => produkttyp r = p).length
        let pissues : Int := (issues.filter fun i => i.produkttyp = p).length
        { ptype := p, total := ptotal, ok := ptotal - pissues, issues := pissues } }

/-! ### Billing-table normalisation (`FileProcessor.load_duda_file`) -/

/-- One raw parsed CSV row of the billing export, before normalisation. -/
structure RawDudaRow where
  siteAlias : Option String
  siteURL : Option String
  chargeFrequency : Option String
  unpublicationDate : Option String
  shouldCharge : Option String
  rest : List (Option String)
deriving Repr, DecidableEq

/-- Numeric value of a digit string. -/
def natOfDigits (l : List Char) : Nat :=
  l.foldl (fun a c => a * 10 + digitVal c) 0

/-- Decimal-literal parser modelling `pd.to_numeric` followed by
`astype(int)`: optional sign, integer digits, optional fraction; the
result truncates toward zero (exponent notation is not modelled). -/
def parseIntTrunc (s : String) : Option Int :=
  let l := stripList s.data
  let p : Int × List Char :=
    match l with
    | '-' :: t => (-1, t)
    | '+' :: t => (1, t)
    | t => (1, t)
  let ds := p.2.takeWhile Char.isDigit
  let l2 := p.2.drop ds.length
  match l2 with
  | [] => if ds.isEmpty then none else some (p.1 * natOfDigits ds)
  | '.' :: fs =>
    let fds := fs.takeWhile Char.isDigit
    if fs.drop fds.length = [] && !(ds.isEmpty && fds.isEmpty) then
      some (p.1 * natOfDigits ds)
    else none
  | _ => none

/-- Models `pd.to_numeric(col, errors='coerce').fillna(0).astype(int)`:
missing or non-numeric cells become `0`. -/
def pyToNumericInt (v : Option String) : Int :=
  match v with
  | none => 0
  | some s =>
    match parseIntTrunc s with
    | some n => n
    | none => 0

/-- Embedding of `FileProcessor.load_duda_file`'s normalisation steps:
force "Site Alias" to string, convert "Should Charge" to an integer, and
retain only the rows whose converted value is `1`. -/
def load_duda_file (raws : List RawDudaRow) : List DudaRow :=
  (raws.map fun r =>
    ({ siteAlias := pyStr r.siteAlias, siteURL := r.siteURL,
       chargeFrequency := r.chargeFrequency, unpublicationDate := r.unpublicationDate,
       shouldCharge := pyToNumericInt r.shouldCharge, rest := r.rest } : DudaRow)).filter
    fun r => r.shouldCharge == 1

/-! ### Remote status verifier (`DudaAPIVerifier`)

The HTTP layer is not modelled: `verify_issues` receives the per-site
result of `get_site_status` through an oracle `String → Option ApiResult`.
A failed remote query (timeout, connection error, non-2xx response) is a
result carrying an `error` entry, exactly as `get_site_status` builds it
in those cases; `none` models the `None` return. -/

/-- One activity of the publishing history. -/
structure ApiActivity where
  activityType : String
  date : Option String
deriving Repr, DecidableEq

/-- The dictionary returned by `get_site_status`. -/
structure ApiResult where
  error : Option String
  details : Option String
  is_published : Bool
  last_published : Option String
  unpublication_date : Option String
  site_domain : Option String
  publish_history : List ApiActivity
  api_response_code : Option Int
deriving Repr, DecidableEq

/-- A failed remote query: `None`, or a result carrying an `error` key. -/
def isErrorResult : Option ApiResult → Bool
  | none => true
  | some r => r.error.isSome

/-- The classification record returned by `analyze_api_result`. -/
structure ApiAnalysis where
  classification : String
  reason : String
  recommendation : String
  details : Option String
deriving Repr, DecidableEq

/-- Scan of the publishing history for the most recent "unpublish" event
whose date parses; models the fallback loop of `analyze_api_result`. -/
def daysFromHistory (now : Int) : List ApiActivity → Option Int
  | [] => none
  | a :: restHist =>
    if strContains (lowerStr a.activityType) "unpublish" then
      match a.date with
      | some d =>
        if d = "" then daysFromHistory now restHist
        else
          match days_since_date now (some d) with
          | some n => some n
          | none => daysFromHistory now restHist
      | none => daysFromHistory now restHist
    else daysFromHistory now restHist

/-- Embedding of `DudaAPIVerifier.analyze_api_result` (the `site_id` and
`original_issue` parameters are unused by the source as well). -/
def analyze_api_result (now : Int) (_siteId : String) (apiResult : Option ApiResult)
    (_originalIssue : Issue) : ApiAnalysis :=
  match apiResult with
  | none =>
    { classification := "api_error", reason := "API nicht verfügbar",
      recommendation := "Manuelle Kontrolle erforderlich", details := some "" }
  | some res =>
    match res.error with
    | some err =>
      { classification := "api_error", reason := err,
        recommendation := "Manuelle Kontrolle erforderlich",
        details := some (res.details.getD "") }
    | none =>
      if res.is_published then
        { classification := "false_positive",
          reason := "Site ist tatsächlich online und erreichbar",
          recommendation := "Verrechnung berechtigt - CRM Status prüfen und aktualisieren",
          details := none }
      else
        let daysOffline :=
          match days_since_date now res.unpublication_date with
          | some d => some d
          | none => daysFromHistory now res.publish_history
        match daysOffline with
        | some d =>
          if d ≤ 31 then
            { classification := "false_positive",
              reason := "Site offline seit " ++ toString d ++
                " Tagen (≤31 Tage = Kalendermonat-Regel)",
              recommendation :=
                "Verrechnung berechtigt - im aktuellen Abrechnungsmonat offline gegangen",
              details := none }
          else
            { classification := "confirmed_issue",
              reason := "Site ist offline seit " ++ toString d ++ " Tagen",
              recommendation := "Manuelle Kontrolle - möglicherweise nicht berechtigt verrechnet",
              details := none }
        | none =>
          { classification := "confirmed_issue",
            reason := "Site ist offline Offline-Datum unbekannt",
            recommendation := "Manuelle Kontrolle - möglicherweise nicht berechtigt verrechnet",
            details := none }

/-- The value stored under `API_Published`: a boolean, or the string
`'ERROR'` when the query failed. -/
inductive ApiPublishedField where
  | val (b : Bool)
  | errorMark
deriving Repr, DecidableEq

/-- The enrichment columns added to an issue by `verify_issues`. -/
structure EnrichedFields where
  api_Published : ApiPublishedField
  api_Last_Published : Option String
  api_Unpublish_Date : Option String
  api_Site_Domain : Option String
  api_Error_Details : Option String
  api_Analysis : String
  api_Recommendation : String
deriving Repr, DecidableEq

/-- An output row of `verify_issues`: the original issue, enriched with
API findings unless the whole verification was skipped. -/
abbrev VerifiedIssue := Issue × Option EnrichedFields

/-- The enrichment step of the `verify_issues` loop. -/
def enrichFields (apiResult : Option ApiResult) (analysis : ApiAnalysis) : EnrichedFields :=
  match apiResult with
  | some res =>
    if res.error.isNone then
      { api_Published := .val res.is_published, api_Last_Published := res.last_published,
        api_Unpublish_Date := res.unpublication_date, api_Site_Domain := res.site_domain,
        api_Error_Details := none, api_Analysis := analysis.reason,
        api_Recommendation := analysis.recommendation }
    else
      { api_Published := .errorMark, api_Last_Published := some "",
        api_Unpublish_Date := some "", api_Site_Domain := some "",
        api_Error_Details := some (res.details.getD ""), api_Analysis := analysis.reason,
        api_Recommendation := analysis.recommendation }
  | none =>
    { api_Published := .errorMark, api_Last_Published := some "",
      api_Unpublish_Date := some "", api_Site_Domain := some "",
      api_Error_Details := some "", api_Analysis := analysis.reason,
      api_Recommendation := analysis.recommendation }

/-- One iteration of the `verify_issues` loop, appending the enriched
issue to the accumulated output partitions (remaining, false positives,
API errors). -/
def stepVerify (now : Int) (oracle : String → Option ApiResult)
    (acc : List VerifiedIssue × List VerifiedIssue × List VerifiedIssue) (issue : Issue) :
    List VerifiedIssue × List VerifiedIssue × List VerifiedIssue :=
  let res := oracle issue.site_Alias
  let analysis := analyze_api_result now issue.site_Alias res issue
  let e : VerifiedIssue := (issue, some (enrichFields res analysis))
  if analysis.classification = "false_positive" then
    (acc.1, acc.2.1 ++ [e], acc.2.2)
  else if analysis.classification = "api_error" then
    (acc.1 ++ [e], acc.2.1, acc.2.2 ++ [e])
  else
    (acc.1 ++ [e], acc.2.1, acc.2.2)

/-- Embedding of `DudaAPIVerifier.verify_issues`: without credentials or
issues it passes the input through untouched; otherwise each issue is
queried, analyzed, enriched, and partitioned. -/
def verify_issues (now : Int) (apiAvailable : Bool) (oracle : String → Option ApiResult)
    (issues : List Issue) :
    List VerifiedIssue × List VerifiedIssue × List VerifiedIssue :=
  if !apiAvailable || issues.isEmpty then (issues.map (fun i => (i, none)), [], [])
  else issues.foldl (stepVerify now oracle) ([], [], [])

/-- The product enum named by the specification: License ("Lizenz"),
Shop, or one of the dependent App subtypes. -/
def inProductEnum (p : String) : Bool :=
  p = "Lizenz" || p = "Shop" || is_app_product p

/-- Raw billing rows for the C8 witness: one row that converts to `0` and
one that converts to `1`. -/
def c8Raws : List RawDudaRow :=
  [{ siteAlias := some "dead0000", siteURL := none, chargeFrequency := some "DudaOne Monthly",
     unpublicationDate := none, shouldCharge := some "0", rest := [] },
   { siteAlias := some "abcd1234", siteURL := none, chargeFrequency := some "DudaOne Monthly",
     unpublicationDate := none, shouldCharge := some "1", rest := [] }]

/-- Billing table for the C3 counterexample: a single App-type row (a
Cookiebot charge) whose site id does not occur in the CRM table. -/
def c3Duda : List DudaRow :=
  [{ siteAlias := "abcd1234", siteURL := none, chargeFrequency := some "Cookiebot Pro monthly",
     unpublicationDate := none, shouldCharge := 1, rest := [] }]

/-- C6's reading of the specification, as a proposition: a billing item
whose stripped site id has no exact match among the CRM lookup keys yields
an issue whose problem type is "Site nicht im CRM" and whose `days_offline`
is computed from the item's own unpublication date. -/
def claim6Statement : Prop :=
  ∀ (now : Int) (duda : List DudaRow) (crm : List CrmRow),
    ∀ row ∈ analyzerTable duda crm,
      crm.find? (fun c => c.siteIdDuda = pyStrip row.siteAlias) = none →
      (issueForRow now (analyzerTable duda crm) crm row).map
          (fun i => (i.problem_Typ, i.unpublish_Tage)) =
        some ("Site nicht im CRM", truthyDays now row.unpublicationDate)

/-- App row for the C6 counterexample: no unpublication date of its own. -/
def c6App : DudaRow :=
  { siteAlias := "abcd1234", siteURL := none, chargeFrequency := some "Cookiebot Pro monthly",
    unpublicationDate := none, shouldCharge := 1, rest := [] }

/-- Sibling License row for the C6 counterexample, with an old
unpublication date. -/
def c6Lic : DudaRow :=
  { siteAlias := "abcd1234", siteURL := none, chargeFrequency := some "DudaOne Monthly",
    unpublicationDate := some "2024-01-01", shouldCharge := 1, rest := [] }

/-- Billing table for the C6 counterexample. -/
def c6Duda : List DudaRow := [c6App, c6Lic]

/-- Run clock for the C6 counterexample: 2024-06-20. -/
def c6Now : Int := dtMicros ⟨2024, 6, 20, 0, 0, 0, 0⟩

/-- Row for the C6 witness: its own unpublication date is present. -/
def c6wRow : DudaRow :=
  { siteAlias := "beef0001", siteURL := none, chargeFrequency := some "DudaOne Monthly",
    unpublicationDate := some "2024-06-01", shouldCharge := 1, rest := [] }

/-- The enriched output row that `verify_issues` builds for an issue. -/
def enrichedFor (now : Int) (oracle : String → Option ApiResult) (issue : Issue) :
    VerifiedIssue :=
  (issue, some (enrichFields (oracle issue.site_Alias)
    (analyze_api_result now issue.site_Alias (oracle issue.site_Alias) issue)))

/-- Issue for the C9 witness. -/
def c9Issue : Issue :=
  { site_Alias := "abcd1234", site_URL := none, produkttyp := "Lizenz",
    charge_Frequency := some "DudaOne Monthly", crm_Status := some "gekündigt",
    projektname := some "P", problem_Typ := "Abweichender Workflow-Status",
    unpublish_Tage := none }

/-- Oracle for the C9 witness: every query times out (the source's
`{'error': 'Timeout', 'api_response_code': 408}` result). -/
def c9Oracle : String → Option ApiResult := fun _ =>
  some { error := some "Timeout", details := none, is_published := false,
         last_published := none, unpublication_date := none, site_domain := none,
         publish_history := [], api_response_code := some 408 }

/-- The fields of a billing row that the repair never writes. -/
def frameEq (a b : DudaRow) : Prop :=
  a.chargeFrequency = b.chargeFrequency ∧ a.unpublicationDate = b.unpublicationDate ∧
    a.shouldCharge = b.shouldCharge ∧ a.rest = b.rest

/-- Row for the C5 counterexample: a corrupted id with no usable URL. -/
def c5Row : DudaRow :=
  { siteAlias := "8.3E+07", siteURL := none, chargeFrequency := some "DudaOne Monthly",
    unpublicationDate := none, shouldCharge := 1, rest := [] }

/-- Billing table for the C5 counterexample: a corrupted id with no
usable URL can never be resolved against an empty CRM table. -/
def c5Duda : List DudaRow := [c5Row]

/-- State invariant of the repair loop (relative to the original table
`D`): lengths agree, rows whose alias still matches the scientific
notation pattern are pristine copies of the original rows, and every id
recorded as repaired is scientific and no longer occurs in the table. -/
def RepInv (D : List DudaRow) (st : List DudaRow × List String) : Prop :=
  st.1.length = D.length ∧
  (∀ i (h1 : i < st.1.length) (h2 : i < D.length),
    sciMatch ((st.1.get ⟨i, h1⟩).siteAlias) = true → st.1.get ⟨i, h1⟩ = D.get ⟨i, h2⟩) ∧
  (∀ x ∈ st.2, sciMatch x = true) ∧
  (∀ x ∈ st.2, ∀ i (h1 : i < st.1.length), (st.1.get ⟨i, h1⟩).siteAlias ≠ x)

/-- Replay property: a row already processed by the loop whose (stripped)
alias still occurs in the table would fail again against the current
table. -/
def RepReplay (crm : List CrmRow) (st : List DudaRow × List String)
    (processed : List DudaRow) : Prop :=
  ∀ row ∈ processed,
    (∃ i, ∃ h1 : i < st.1.length, (st.1.get ⟨i, h1⟩).siteAlias = pyStrip row.siteAlias) →
    attemptRepair crm st.1 row = none

/-- Billing table for the C4 counterexample: two corrupted ids whose URLs
cross-resolve to each other's scientific-notation CRM ids. -/
def c4Duda : List DudaRow :=
  [{ siteAlias := "1e+1", siteURL := some "https://a.com",
     chargeFrequency := some "DudaOne Monthly", unpublicationDate := none,
     shouldCharge := 1, rest := [] },
   { siteAlias := "2e+2", siteURL := some "https://b.com",
     chargeFrequency := some "DudaOne Monthly", unpublicationDate := none,
     shouldCharge := 1, rest := [] }]

/-- CRM table for the C4 counterexample: the "Site-ID-Duda" values are
themselves in scientific notation. -/
def c4Crm : List CrmRow :=
  [{ siteIdDuda := "2e+2", workflowStatus := some "Website online",
     domain := some "a.com", projektname := some "P1", landingpageId := none },
   { siteIdDuda := "1e+1", workflowStatus := some "Website online",
     domain := some "b.com", projektname := some "P2", landingpageId := none }]

/-- C7 counterexample: a missing charge frequency is classified
"Unbekannt", which is neither License, Shop, nor an App subtype. -/
theorem claim7_counterexample :
    categorize_charge_frequency none = "Unbekannt" ∧
    inProductEnum (categorize_charge_frequency none) = false := by
  decide

/-- C7 (amended): for every present string input the classification is
total and lands in the enum, with the stated priority order — "dudaone
monthly" wins, then "ecom"/"store", then the App subtypes with generic
fallback "Apps"; a missing value, however, is classified "Unbekannt",
outside the enum. -/
theorem claim7_classification_total (s : String) :
    inProductEnum (categorize_charge_frequency (some s)) = true ∧
    (strContains (lowerStr s) "dudaone monthly" = true →
      categorize_charge_frequency (some s) = "Lizenz") ∧
    (strContains (lowerStr s) "dudaone monthly" = false →
      (strContains (lowerStr s) "ecom" || strContains (lowerStr s) "store") = true →
      categorize_charge_frequency (some s) = "Shop") ∧
    (strContains (lowerStr s) "dudaone monthly" = false →
      (strContains (lowerStr s) "ecom" || strContains (lowerStr s) "store") = false →
      is_app_product (categorize_charge_frequency (some s)) = true) ∧
    categorize_charge_frequency none = "Unbekannt" := by
  unfold categorize_charge_frequency inProductEnum is_app_product
  refine ⟨?_, ?_, ?_, ?_, rfl⟩ <;>
    simp only [] <;>
    (try intro h1) <;> (try intro h2) <;>
    (repeat' split) <;> simp_all

/-- Witness for C7 at concrete inputs: an "ecom" label is a Shop. -/
theorem claim7_classification_total_witness :
    categorize_charge_frequency (some "Duda eCom 30 monthly") = "Shop" :=
  (claim7_classification_total "Duda eCom 30 monthly").2.2.1 (by decide) (by decide)

/-- C8: rows whose "Should Charge" does not convert to `1` are dropped by
the normaliser — every retained row carries `1`, and dropping those rows
from the raw input up front changes neither the retained table, the issue
list, nor the summary (so they appear in no output). -/
theorem claim8_should_charge_filter (now : Int) (raws : List RawDudaRow) (crm : List CrmRow) :
    (∀ r ∈ load_duda_file raws, r.shouldCharge = 1) ∧
    load_duda_file (raws.filter fun r => pyToNumericInt r.shouldCharge == 1) =
      load_duda_file raws ∧
    find_issues now (load_duda_file (raws.filter fun r => pyToNumericInt r.shouldCharge == 1))
        crm =
      find_issues now (load_duda_file raws) crm ∧
    get_summary now (load_duda_file (raws.filter fun r => pyToNumericInt r.shouldCharge == 1))
        crm =
      get_summary now (load_duda_file raws) crm := by
  have h1 : load_duda_file (raws.filter fun r => pyToNumericInt r.shouldCharge == 1) =
      load_duda_file raws := by
    unfold load_duda_file
    have h2 := List.filter_map
      (fun r : RawDudaRow =>
        ({ siteAlias := pyStr r.siteAlias, siteURL := r.siteURL,
           chargeFrequency := r.chargeFrequency, unpublicationDate := r.unpublicationDate,
           shouldCharge := pyToNumericInt r.shouldCharge, rest := r.rest } : DudaRow)) raws
      (p := fun r : DudaRow => r.shouldCharge == 1)
    rw [show (raws.filter fun r => pyToNumericInt r.shouldCharge == 1).map
          (fun r : RawDudaRow =>
            ({ siteAlias := pyStr r.siteAlias, siteURL := r.siteURL,
               chargeFrequency := r.chargeFrequency, unpublicationDate := r.unpublicationDate,
               shouldCharge := pyToNumericInt r.shouldCharge, rest := r.rest } : DudaRow)) =
        (raws.map
          (fun r : RawDudaRow =>
            ({ siteAlias := pyStr r.siteAlias, siteURL := r.siteURL,
               chargeFrequency := r.chargeFrequency, unpublicationDate := r.unpublicationDate,
               shouldCharge := pyToNumericInt r.shouldCharge, rest := r.rest } : DudaRow))).filter
          (fun r : DudaRow => r.shouldCharge == 1) from h2.symm]
    rw [List.filter_filter]
    simp
  refine ⟨?_, h1, by rw [h1], by rw [h1]⟩
  intro r hr
  have := (List.mem_filter.mp hr).2
  simpa using this

/-- Witness for C8: in a two-row raw table with "Should Charge" values
`"0"` and `"1"`, the retained row carries the integer `1`. -/
theorem claim8_should_charge_filter_witness :
    ({ siteAlias := "abcd1234", siteURL := none, chargeFrequency := some "DudaOne Monthly",
       unpublicationDate := none, shouldCharge := 1, rest := [] } : DudaRow).shouldCharge = 1 :=
  (claim8_should_charge_filter 0 c8Raws []).1 _ (by decide)

/-- Membership in the accumulator-driven dedup: an element appears in
`firstUniquesAux seen l` exactly when it occurs in `l` but not in `seen`. -/
theorem mem_firstUniquesAux :
    ∀ (l seen : List String) (p : String),
      p ∈ firstUniquesAux seen l ↔ (p ∈ l ∧ p ∉ seen) := by
  intro l
  induction l with
  | nil => intro seen p; simp [firstUniquesAux]
  | cons a t ih =>
    intro seen p
    rw [firstUniquesAux]
    by_cases h : a ∈ seen
    · rw [if_pos h, ih seen p]
      constructor
      · exact fun ⟨h1, h2⟩ => ⟨List.mem_cons_of_mem a h1, h2⟩
      · rintro ⟨h1, h2⟩
        rcases List.mem_cons.mp h1 with rfl | h1'
        · exact absurd h h2
        · exact ⟨h1', h2⟩
    · rw [if_neg h]
      simp only [List.mem_cons, ih (a :: seen) p, List.mem_cons]
      constructor
      · rintro (rfl | ⟨h1, h2⟩)
        · exact ⟨Or.inl rfl, h⟩
        · exact ⟨Or.inr h1, fun hs => h2 (Or.inr hs)⟩
      · rintro ⟨rfl | h1, h2⟩
        · exact Or.inl rfl
        · by_cases hpa : p = a
          · exact Or.inl hpa
          · exact Or.inr ⟨h1, fun hs => (hs.elim hpa h2)⟩

/-- The accumulator-driven dedup produces no duplicates. -/
theorem nodup_firstUniquesAux :
    ∀ (l seen : List String), (firstUniquesAux seen l).Nodup := by
  intro l
  induction l with
  | nil => intro seen; simp [firstUniquesAux]
  | cons a t ih =>
    intro seen
    rw [firstUniquesAux]
    by_cases h : a ∈ seen
    · rw [if_pos h]; exact ih seen
    · rw [if_neg h]
      refine List.nodup_cons.mpr ⟨?_, ih (a :: seen)⟩
      intro hmem
      exact ((mem_firstUniquesAux t (a :: seen) a).mp hmem).2 (List.mem_cons_self a seen)

/-- Summing the multiplicities of the distinct values of a list gives its
length. -/
theorem sum_count_firstUniques (l : List String) :
    ((firstUniques l).map fun p => l.count p).sum = l.length := by
  have hmem : ∀ p, p ∈ firstUniques l ↔ p ∈ l := by
    intro p
    rw [firstUniques, mem_firstUniquesAux]
    simp
  have hnd : (firstUniques l).Nodup := nodup_firstUniquesAux l []
  have h1 : ∑ p in (⟨(firstUniques l : Multiset String),
        Multiset.coe_nodup.mpr hnd⟩ : Finset String), l.count p =
      ((firstUniques l).map fun p => l.count p).sum := by
    simp [Finset.sum]
  rw [← h1]
  have h2 : (⟨(firstUniques l : Multiset String),
      Multiset.coe_nodup.mpr hnd⟩ : Finset String) = l.toFinset := by
    ext p
    simp [Finset.mem_mk, hmem p]
  rw [h2]
  have h3 := Multiset.toFinset_sum_count_eq (l : Multiset String)
  simp only [Multiset.quot_mk_to_coe, Multiset.coe_count, Multiset.coe_card] at h3
  exact h3

/-- Casting a mapped sum of naturals to integers. -/
theorem sum_map_intCast (L : List String) (c : String → Nat) :
    (L.map fun p => ((c p : Nat) : Int)).sum = (((L.map c).sum : Nat) : Int) := by
  induction L with
  | nil => simp
  | cons a t ih => simp [ih]

/-- Counting rows of one product type equals the multiplicity of that type
in the projected type column. -/
theorem filter_produkttyp_count (t : List DudaRow) (p : String) :
    (t.filter fun r => produkttyp r = p).length = (t.map produkttyp).count p := by
  induction t with
  | nil => simp
  | cons r t ih =>
    by_cases h : produkttyp r = p
    · simp [List.filter_cons, h, List.count_cons, ih]
    · simp [List.filter_cons, h, List.count_cons, ih]

/-- C2: the summary satisfies `ok_count + issues_count = total_charged`,
every breakdown entry satisfies `ok + issues = total`, and the breakdown's
`ok + issues` values sum to `total_charged`. -/
theorem claim2_summary_invariant (now : Int) (duda : List DudaRow) (crm : List CrmRow) :
    (get_summary now duda crm).ok_count + (get_summary now duda crm).issues_count =
      (get_summary now duda crm).total_charged ∧
    ((get_summary now duda crm).product_breakdown.map fun e => e.ok + e.issues) =
      ((get_summary now duda crm).product_breakdown.map fun e => e.total) ∧
    ((get_summary now duda crm).product_breakdown.map fun e => e.ok + e.issues).sum =
      (get_summary now duda crm).total_charged := by
  unfold get_summary
  refine ⟨Int.sub_add_cancel _ _, ?_, ?_⟩
  · rw [List.map_map, List.map_map]
    apply List.map_congr_left
    intro p _
    simp [Int.sub_add_cancel]
  · rw [List.map_map]
    have hcong :
        ((firstUniques ((analyzerTable duda crm).map produkttyp)).map
          ((fun e : BreakdownEntry => e.ok + e.issues) ∘ fun p =>
            ({ ptype := p,
               total := (((analyzerTable duda crm).filter fun r => produkttyp r = p).length : Int),
               ok := (((analyzerTable duda crm).filter fun r => produkttyp r = p).length : Int) -
                 (((find_issues now duda crm).filter fun i => i.produkttyp = p).length : Int),
               issues :=
                 (((find_issues now duda crm).filter fun i => i.produkttyp = p).length : Int) } :
              BreakdownEntry))) =
        (firstUniques ((analyzerTable duda crm).map produkttyp)).map fun p =>
          ((((analyzerTable duda crm).map produkttyp).count p : Nat) : Int) := by
      apply List.map_congr_left
      intro p _
      simp [Int.sub_add_cancel, filter_produkttyp_count]
    rw [hcong, sum_map_intCast, sum_count_firstUniques, List.length_map]

/-- Two strings whose final characters differ are never equal, even after
prepending an arbitrary prefix to the first. -/
theorem append_ne_of_last_ne (p q t : String) (c1 c2 : Char)
    (hq : q.data.reverse.head? = some c1) (ht : t.data.reverse.head? = some c2)
    (hne : c1 ≠ c2) : p ++ q ≠ t := by
  intro h
  have hd : p.data ++ q.data = t.data := congrArg String.data h
  have h2 : (p.data ++ q.data).reverse.head? = t.data.reverse.head? := by rw [hd]
  rw [List.reverse_append] at h2
  cases hqr : q.data.reverse with
  | nil => rw [hqr] at hq; simp at hq
  | cons x xs =>
    rw [hqr] at hq h2
    simp only [List.head?_cons, Option.some.injEq] at hq
    rw [List.cons_append] at h2
    simp only [List.head?_cons, ht, Option.some.injEq] at h2
    exact hne (hq ▸ h2)

/-- C3 counterexample: an App-type item that is missing from the CRM is
flagged with problem type "Site nicht im CRM", which neither ends in
"ohne Website online" ("without active license") nor equals
"keine zugehörige Lizenz gefunden" ("no associated license found"). -/
theorem claim3_counterexample :
    ¬ (∀ issue ∈ find_issues 0 c3Duda [],
        is_app_product issue.produkttyp = true →
          strEndsWith issue.problem_Typ "ohne Website online" = true ∨
          issue.problem_Typ = "keine zugehörige Lizenz gefunden") := by
  decide

/-- C3 (amended): an App-type issue carries problem type "Site nicht im
CRM", or "&lt;subtype&gt; ohne Website online", or "&lt;subtype&gt; keine
zugehörige Lizenz gefunden", and never the License/Shop-reserved
"Abweichender Workflow-Status" ("status mismatch"). -/
theorem claim3_app_issue_problem_types (now : Int) (duda : List DudaRow)
    (crm : List CrmRow) :
    ∀ issue ∈ find_issues now duda crm,
      is_app_product issue.produkttyp = true →
        (issue.problem_Typ = "Site nicht im CRM" ∨
         issue.problem_Typ = issue.produkttyp ++ " ohne Website online" ∨
         issue.problem_Typ = issue.produkttyp ++ " keine zugehörige Lizenz gefunden") ∧
        issue.problem_Typ ≠ "Abweichender Workflow-Status" := by
  intro issue hmem happ
  obtain ⟨row, _, heq⟩ := List.mem_filterMap.mp hmem
  simp only [issueForRow] at heq
  split at heq
  · -- no CRM match: problem type "Site nicht im CRM"
    obtain rfl := Option.some.inj heq
    exact ⟨Or.inl rfl, by simp⟩
  · -- CRM match found
    split at heq
    · exact absurd heq (by simp)
    · split at heq
      · -- App branch
        split at heq
        · split at heq
          · exact absurd heq (by simp)
          · obtain rfl := Option.some.inj heq
            refine ⟨Or.inr (Or.inl rfl), ?_⟩
            exact append_ne_of_last_ne _ _ _ 'e' 's' (by decide) (by decide) (by decide)
        · obtain rfl := Option.some.inj heq
          refine ⟨Or.inr (Or.inr rfl), ?_⟩
          exact append_ne_of_last_ne _ _ _ 'n' 's' (by decide) (by decide) (by decide)
      · -- License/Shop branch contradicts the App hypothesis
        obtain rfl := Option.some.inj heq
        simp_all

/-- Witness for C3 at a concrete input: the App row of the counterexample
table is flagged, and its problem type is "Site nicht im CRM". -/
theorem claim3_app_issue_problem_types_witness :
    ({ site_Alias := "abcd1234", site_URL := none, produkttyp := "CCB",
       charge_Frequency := some "Cookiebot Pro monthly", crm_Status := some "Nicht gefunden",
       projektname := some "Nicht gefunden", problem_Typ := "Site nicht im CRM",
       unpublish_Tage := none } : Issue).problem_Typ = "Site nicht im CRM" ∨
    ({ site_Alias := "abcd1234", site_URL := none, produkttyp := "CCB",
       charge_Frequency := some "Cookiebot Pro monthly", crm_Status := some "Nicht gefunden",
       projektname := some "Nicht gefunden", problem_Typ := "Site nicht im CRM",
       unpublish_Tage := none } : Issue).problem_Typ =
      "CCB" ++ " ohne Website online" ∨
    ({ site_Alias := "abcd1234", site_URL := none, produkttyp := "CCB",
       charge_Frequency := some "Cookiebot Pro monthly", crm_Status := some "Nicht gefunden",
       projektname := some "Nicht gefunden", problem_Typ := "Site nicht im CRM",
       unpublish_Tage := none } : Issue).problem_Typ =
      "CCB" ++ " keine zugehörige Lizenz gefunden" :=
  (claim3_app_issue_problem_types 0 c3Duda [] _ (by decide) (by decide)).1

/-- C6 counterexample: for an App item with no own unpublication date but
a dated sibling License row, the "Site nicht im CRM" issue carries the
sibling's `days_offline`, not an absent one — the fallback to the License
date happens before the CRM lookup. -/
theorem claim6_counterexample : ¬ claim6Statement := by
  intro h
  have h2 := h c6Now c6Duda [] c6App (by decide) (by decide)
  exact absurd h2 (by decide)

/-- C6 (amended): a billing item absent from the CRM lookup keys yields an
issue of problem type "Site nicht im CRM" whose `days_offline` is computed
from the item's effective unpublication date — its own date, or for App
items the sibling License row's date when the own date is missing — and
the issue appears in the `find_issues` output. -/
theorem claim6_not_in_crm_days (now : Int) (duda : List DudaRow) (crm : List CrmRow) :
    ∀ row ∈ analyzerTable duda crm,
      crm.find? (fun c => c.siteIdDuda = pyStrip row.siteAlias) = none →
      (issueForRow now (analyzerTable duda crm) crm row).map
          (fun i => (i.problem_Typ, i.unpublish_Tage)) =
        some ("Site nicht im CRM",
          truthyDays now (effectiveUnpub (analyzerTable duda crm) (pyStrip row.siteAlias)
            (produkttyp row) row.unpublicationDate)) ∧
      ∀ i, issueForRow now (analyzerTable duda crm) crm row = some i →
        i ∈ find_issues now duda crm := by
  intro row hrow hfind
  constructor
  · simp only [issueForRow, hfind]
    rfl
  · intro i hi
    simp only [find_issues]
    exact List.mem_filterMap.mpr ⟨row, hrow, hi⟩

/-- Witness for C6 (amended) at a concrete input. -/
theorem claim6_not_in_crm_days_witness :
    (issueForRow c6Now (analyzerTable [c6wRow] []) [] c6wRow).map
        (fun i => (i.problem_Typ, i.unpublish_Tage)) =
      some ("Site nicht im CRM",
        truthyDays c6Now (effectiveUnpub (analyzerTable [c6wRow] []) (pyStrip c6wRow.siteAlias)
          (produkttyp c6wRow) c6wRow.unpublicationDate)) :=
  (claim6_not_in_crm_days c6Now [c6wRow] [] c6wRow (by decide) (by decide)).1

/-- A failed remote query is always classified `api_error`. -/
theorem analyze_error_classification (now : Int) (s : String) (r : Option ApiResult)
    (i : Issue) (h : isErrorResult r = true) :
    (analyze_api_result now s r i).classification = "api_error" := by
  cases r with
  | none => rfl
  | some res =>
    cases herr : res.error with
    | none => rw [isErrorResult, herr] at h; simp at h
    | some e => simp [analyze_api_result, herr]

/-- The verification loop only appends to its three output partitions. -/
theorem verify_fold_extend (now : Int) (oracle : String → Option ApiResult) :
    ∀ (l : List Issue) (acc : List VerifiedIssue × List VerifiedIssue × List VerifiedIssue),
      ∃ a b c, l.foldl (stepVerify now oracle) acc =
        (acc.1 ++ a, acc.2.1 ++ b, acc.2.2 ++ c) := by
  intro l
  induction l with
  | nil => intro acc; exact ⟨[], [], [], by simp⟩
  | cons i t ih =>
    intro acc
    rw [List.foldl_cons]
    have hstep : ∃ d1 d2 d3, stepVerify now oracle acc i =
        (acc.1 ++ d1, acc.2.1 ++ d2, acc.2.2 ++ d3) := by
      simp only [stepVerify]
      split
      · exact ⟨[], [(i, some (enrichFields (oracle i.site_Alias)
          (analyze_api_result now i.site_Alias (oracle i.site_Alias) i)))], [], by simp⟩
      · split
        · exact ⟨[(i, some (enrichFields (oracle i.site_Alias)
            (analyze_api_result now i.site_Alias (oracle i.site_Alias) i)))], [],
            [(i, some (enrichFields (oracle i.site_Alias)
              (analyze_api_result now i.site_Alias (oracle i.site_Alias) i)))], by simp⟩
        · exact ⟨[(i, some (enrichFields (oracle i.site_Alias)
            (analyze_api_result now i.site_Alias (oracle i.site_Alias) i)))], [], [], by simp⟩
    obtain ⟨d1, d2, d3, hd⟩ := hstep
    obtain ⟨a, b, c, h⟩ := ih (stepVerify now oracle acc i)
    rw [hd] at h
    exact ⟨d1 ++ a, d2 ++ b, d3 ++ c, by rw [hd, h]; simp⟩

/-- An issue whose remote query failed survives the verification fold in
both the remaining-issues and the API-error partitions. -/
theorem verify_fold_mem (now : Int) (oracle : String → Option ApiResult) :
    ∀ (l : List Issue) (acc : List VerifiedIssue × List VerifiedIssue × List VerifiedIssue)
      (issue : Issue), issue ∈ l → isErrorResult (oracle issue.site_Alias) = true →
      enrichedFor now oracle issue ∈ (l.foldl (stepVerify now oracle) acc).1 ∧
      enrichedFor now oracle issue ∈ (l.foldl (stepVerify now oracle) acc).2.2 := by
  intro l
  induction l with
  | nil => intro acc issue h; intro _; simp at h
  | cons j t ih =>
    intro acc issue hmem herr
    rw [List.foldl_cons]
    rcases List.mem_cons.mp hmem with rfl | hmem'
    · have hcls := analyze_error_classification now issue.site_Alias
        (oracle issue.site_Alias) issue herr
      have hne : ¬ (analyze_api_result now issue.site_Alias
          (oracle issue.site_Alias) issue).classification = "false_positive" := by
        rw [hcls]; decide
      have hstep : stepVerify now oracle acc issue =
          (acc.1 ++ [enrichedFor now oracle issue], acc.2.1,
            acc.2.2 ++ [enrichedFor now oracle issue]) := by
        simp only [stepVerify, enrichedFor]
        rw [if_neg hne, if_pos hcls]
      rw [hstep]
      obtain ⟨a, b, c, hex⟩ := verify_fold_extend now oracle t
        (acc.1 ++ [enrichedFor now oracle issue], acc.2.1,
          acc.2.2 ++ [enrichedFor now oracle issue])
      rw [hex]
      constructor <;> simp
    · exact ih (stepVerify now oracle acc j) issue hmem' herr

/-- C9: when the remote query for an issue fails (timeout, connection
error, or non-2xx response — all of which `get_site_status` reports as a
result carrying an `error` entry), the issue is classified `api_error` and
its enriched row appears both in the returned remaining issues and in the
returned API-error tally — it is never dropped. -/
theorem claim9_api_error_retained (now : Int) (oracle : String → Option ApiResult)
    (issues : List Issue) (issue : Issue)
    (hmem : issue ∈ issues)
    (herr : isErrorResult (oracle issue.site_Alias) = true) :
    (analyze_api_result now issue.site_Alias (oracle issue.site_Alias) issue).classification =
      "api_error" ∧
    enrichedFor now oracle issue ∈ (verify_issues now true oracle issues).1 ∧
    enrichedFor now oracle issue ∈ (verify_issues now true oracle issues).2.2 := by
  have hne : issues.isEmpty = false := by
    cases issues with
    | nil => simp at hmem
    | cons a t => rfl
  have hverify : verify_issues now true oracle issues =
      issues.foldl (stepVerify now oracle) ([], [], []) := by
    simp [verify_issues, hne]
  refine ⟨analyze_error_classification now issue.site_Alias (oracle issue.site_Alias) issue herr,
    ?_, ?_⟩
  · rw [hverify]
    exact (verify_fold_mem now oracle issues ([], [], []) issue hmem herr).1
  · rw [hverify]
    exact (verify_fold_mem now oracle issues ([], [], []) issue hmem herr).2

/-- Witness for C9 at a concrete input: a timed-out issue stays in the
remaining issues. -/
theorem claim9_api_error_retained_witness :
    enrichedFor 0 c9Oracle c9Issue ∈ (verify_issues 0 true c9Oracle [c9Issue]).1 :=
  (claim9_api_error_retained 0 c9Oracle [c9Issue] c9Issue (by decide) (by decide)).2.1

/-- The Boolean infix test agrees with the infix relation. -/
theorem isInfixB_iff (p : List Char) : ∀ l, isInfixB p l = true ↔ p <:+: l := by
  intro l
  induction l with
  | nil => simp [isInfixB, List.isEmpty_iff]
  | cons c t ih =>
    rw [isInfixB, Bool.or_eq_true, List.isPrefixOf_iff_prefix, ih, List.infix_cons_iff]

/-- An infix made of non-whitespace characters survives dropping leading
whitespace. -/
theorem infix_dropWhile_of_forall (p : List Char) (hne : p ≠ [])
    (hp : ∀ c ∈ p, ¬ Char.isWhitespace c) :
    ∀ l, p <:+: l → p <:+: l.dropWhile Char.isWhitespace := by
  intro l
  induction l with
  | nil =>
    intro h
    rw [List.infix_nil] at h
    exact absurd h hne
  | cons c t ih =>
    intro h
    rw [List.dropWhile_cons]
    by_cases hc : Char.isWhitespace c
    · rw [if_pos hc]
      rcases List.infix_cons_iff.mp h with hpre | hinf
      · cases p with
        | nil => exact absurd rfl hne
        | cons ph pt =>
          have hph : ph = c := (List.cons_prefix_cons.mp hpre).1
          exact absurd hc (hph ▸ hp ph (List.mem_cons_self _ _))
      · exact ih hinf
    · rw [if_neg hc]
      exact h

/-- An infix made of non-whitespace characters survives `strip()`. -/
theorem infix_stripList (p : List Char) (hne : p ≠ [])
    (hp : ∀ c ∈ p, ¬ Char.isWhitespace c) (l : List Char) (h : p <:+: l) :
    p <:+: stripList l := by
  rw [stripList]
  have h1 := infix_dropWhile_of_forall p hne hp l h
  have h2 : p.reverse <:+: (l.dropWhile Char.isWhitespace).reverse :=
    List.reverse_infix.mpr h1
  have h3 := infix_dropWhile_of_forall p.reverse (by simpa using hne)
    (by intro c hcmem; exact hp c (List.mem_reverse.mp hcmem))
    ((l.dropWhile Char.isWhitespace).reverse) h2
  have h4 := List.reverse_infix.mpr h3
  simpa using h4

/-- The scientific-notation pattern survives `strip()`. -/
theorem sciMatch_pyStrip (s : String) (h : sciMatch s = true) :
    sciMatch (pyStrip s) = true := by
  have main : ∀ pat : List Char, pat ≠ [] → (∀ c ∈ pat, ¬ Char.isWhitespace c) →
      isInfixB pat s.data = true → isInfixB pat (pyStrip s).data = true := by
    intro pat hne hws hin
    rw [isInfixB_iff] at hin ⊢
    exact infix_stripList pat hne hws s.data hin
  rw [sciMatch, Bool.or_eq_true, Bool.or_eq_true, Bool.or_eq_true] at h
  rw [sciMatch, Bool.or_eq_true, Bool.or_eq_true, Bool.or_eq_true]
  rcases h with ((h1 | h2) | h3) | h4
  · exact Or.inl (Or.inl (Or.inl (main _ (by decide) (by decide) h1)))
  · exact Or.inl (Or.inl (Or.inr (main _ (by decide) (by decide) h2)))
  · exact Or.inl (Or.inr (main _ (by decide) (by decide) h3))
  · exact Or.inr (main _ (by decide) (by decide) h4)

/-- A successful repair takes its corrected id from some CRM row. -/
theorem attemptRepair_some (crm : List CrmRow) (t : List DudaRow) (row : DudaRow)
    (correct u : String) (h : attemptRepair crm t row = some (correct, u)) :
    ∃ c ∈ crm, correct = pyStrip c.siteIdDuda := by
  rw [attemptRepair] at h
  split at h
  · exact absurd h (by simp)
  · split at h
    · next c heq =>
      obtain hpair := Option.some.inj h
      have hc : c ∈ crm := by
        have hcf : c ∈ crm.filter (fun c =>
            strContains (lowerStr (pyStr c.domain))
              (lowerStr (extract_domain (repairSiteURL t (pyStrip row.siteAlias) row)))) := by
          rw [heq]
          exact List.mem_singleton_self c
        exact List.mem_of_mem_filter hcf
      exact ⟨c, hc, (Prod.ext_iff.mp hpair).1.symm⟩
    · exact absurd h (by simp)

/-- Pointwise invariants of the repair loop: any per-row relation between
the original table and the current table that is preserved by a
rewrite-and-backfill step (with a scientific-notation target id and a
CRM-sourced corrected id) is preserved by the whole fold. -/
theorem repair_fold_pointwise (crm : List CrmRow) (P : DudaRow → DudaRow → Prop)
    (hstep : ∀ x correct u, sciMatch x = true →
      (∃ c ∈ crm, correct = pyStrip c.siteIdDuda) →
      ∀ a b, P b a → P b (bfFun correct u (rwFun x correct a))) :
    ∀ (l : List DudaRow), (∀ r ∈ l, sciMatch (pyStrip r.siteAlias) = true) →
    ∀ (st : List DudaRow × List String) (D : List DudaRow),
      st.1.length = D.length →
      (∀ i (h1 : i < st.1.length) (h2 : i < D.length),
        P (D.get ⟨i, h2⟩) (st.1.get ⟨i, h1⟩)) →
      ((l.foldl (stepRepair crm) st).1.length = D.length ∧
       ∀ i (h1 : i < (l.foldl (stepRepair crm) st).1.length) (h2 : i < D.length),
         P (D.get ⟨i, h2⟩) ((l.foldl (stepRepair crm) st).1.get ⟨i, h1⟩)) := by
  intro l
  induction l with
  | nil => intro _ st D hlen hP; exact ⟨hlen, hP⟩
  | cons r l ih =>
    intro hl st D hlen hP
    rw [List.foldl_cons]
    have hr : sciMatch (pyStrip r.siteAlias) = true := hl r (List.mem_cons_self _ _)
    have hl' : ∀ q ∈ l, sciMatch (pyStrip q.siteAlias) = true :=
      fun q hq => hl q (List.mem_cons_of_mem _ hq)
    by_cases hcont : pyStrip r.siteAlias ∈ st.2
    · have hstepEq : stepRepair crm st r = st := by
        simp [stepRepair, hcont]
      rw [hstepEq]
      exact ih hl' st D hlen hP
    · cases hatt : attemptRepair crm st.1 r with
      | none =>
        have hstepEq : stepRepair crm st r = st := by
          simp [stepRepair, hcont, hatt]
        rw [hstepEq]
        exact ih hl' st D hlen hP
      | some pr =>
        obtain ⟨correct, u⟩ := pr
        have hstepEq : stepRepair crm st r =
            (backfillURL correct u (rewriteAlias (pyStrip r.siteAlias) correct st.1),
              pyStrip r.siteAlias :: st.2) := by
          simp [stepRepair, hcont, hatt]
        rw [hstepEq]
        have hmemc := attemptRepair_some crm st.1 r correct u hatt
        refine ih hl' _ D ?_ ?_
        · simpa [backfillURL, rewriteAlias] using hlen
        · intro i h1 h2
          have h1' : i < st.1.length := by
            simpa [backfillURL, rewriteAlias] using h1
          have hget : (backfillURL correct u
              (rewriteAlias (pyStrip r.siteAlias) correct st.1)).get ⟨i, h1⟩ =
              bfFun correct u (rwFun (pyStrip r.siteAlias) correct (st.1.get ⟨i, h1'⟩)) := by
            simp [backfillURL, rewriteAlias, List.get_map]
          rw [hget]
          exact hstep (pyStrip r.siteAlias) correct u hr hmemc _ _ (hP i h1' h2)

/-- The backfill step never writes the "Site Alias" column. -/
theorem bfFun_siteAlias (correct u : String) (r : DudaRow) :
    (bfFun correct u r).siteAlias = r.siteAlias := by
  rw [bfFun]; split <;> rfl

/-- Rewrite and backfill touch only the "Site Alias" and "Site URL"
columns. -/
theorem frameEq_bf_rw (x correct u : String) (a : DudaRow) :
    frameEq (bfFun correct u (rwFun x correct a)) a := by
  rw [frameEq, bfFun, rwFun]
  split <;> split <;> simp_all

/-- C10: the repair returns the same rows in the same order, writing only
the "Site Alias" and "Site URL" columns ("Charge Frequency",
"Unpublication Date", "Should Charge" and all remaining columns are
untouched), and every row whose id does not match the scientific-notation
pattern keeps its "Site Alias".  (The CRM table is only read: the
embedding of the repair is a pure function of it.) -/
theorem claim10_repair_frame (duda : List DudaRow) (crm : List CrmRow) :
    (fix_scientific_notation_ids duda crm).length = duda.length ∧
    ∀ i (h1 : i < (fix_scientific_notation_ids duda crm).length) (h2 : i < duda.length),
      frameEq ((fix_scientific_notation_ids duda crm).get ⟨i, h1⟩) (duda.get ⟨i, h2⟩) ∧
      (sciMatch (duda.get ⟨i, h2⟩).siteAlias = false →
        ((fix_scientific_notation_ids duda crm).get ⟨i, h1⟩).siteAlias =
          (duda.get ⟨i, h2⟩).siteAlias) := by
  by_cases hsnap : (duda.filter fun r => sciMatch r.siteAlias).isEmpty
  · have hfix : fix_scientific_notation_ids duda crm = duda := by
      simp only [fix_scientific_notation_ids, hsnap, if_true]
    rw [hfix]
    exact ⟨rfl, fun i h1 h2 => ⟨⟨rfl, rfl, rfl, rfl⟩, fun _ => rfl⟩⟩
  · have hfix : fix_scientific_notation_ids duda crm =
        ((duda.filter fun r => sciMatch r.siteAlias).foldl (stepRepair crm) (duda, [])).1 := by
      simp [fix_scientific_notation_ids, hsnap]
    rw [hfix]
    refine repair_fold_pointwise crm
      (fun b a => frameEq a b ∧ (sciMatch b.siteAlias = false → a.siteAlias = b.siteAlias))
      ?_ _ ?_ (duda, []) duda rfl
      (fun i h1 h2 => ⟨⟨rfl, rfl, rfl, rfl⟩, fun _ => rfl⟩)
    · intro x correct u hx _ a b hPba
      constructor
      · have h1 := frameEq_bf_rw x correct u a
        exact ⟨h1.1.trans hPba.1.1, (h1.2.1).trans hPba.1.2.1,
          (h1.2.2.1).trans hPba.1.2.2.1, (h1.2.2.2).trans hPba.1.2.2.2⟩
      · intro hb
        have ha := hPba.2 hb
        rw [bfFun_siteAlias, rwFun]
        split
        · next heqx =>
          rw [ha] at heqx
          rw [heqx] at hb
          rw [hx] at hb
          exact absurd hb (by decide)
        · exact ha
    · intro r hr
      exact sciMatch_pyStrip _ (List.mem_filter.mp hr).2

/-- Witness for C10 at a concrete input: a non-scientific row passes
through the repair unchanged in all frame columns. -/
theorem claim10_repair_frame_witness :
    frameEq ((fix_scientific_notation_ids c3Duda []).get ⟨0, by decide⟩)
        (c3Duda.get ⟨0, by decide⟩) ∧
      (sciMatch (c3Duda.get ⟨0, by decide⟩).siteAlias = false →
        ((fix_scientific_notation_ids c3Duda []).get ⟨0, by decide⟩).siteAlias =
          (c3Duda.get ⟨0, by decide⟩).siteAlias) :=
  (claim10_repair_frame c3Duda []).2 0 (by decide) (by decide)

/-- C5 counterexample: after repair against an empty CRM table, the row
with id "8.3E+07" still matches the scientific-notation pattern. -/
theorem claim5_counterexample :
    ¬ (∀ duda crm, ∀ row ∈ fix_scientific_notation_ids duda crm,
        sciMatch row.siteAlias = false) := by
  intro h
  have h2 := h c5Duda [] c5Row (by decide)
  exact absurd h2 (by decide)

/-- C5 (amended): after repair, every row's "Site Alias" either equals its
original value or is the stripped "Site-ID-Duda" of some CRM row; hence a
row can still match the scientific-notation pattern exactly when it was
left unrepaired (or the CRM id itself matches the pattern). -/
theorem claim5_repaired_alias_origin (duda : List DudaRow) (crm : List CrmRow) :
    (fix_scientific_notation_ids duda crm).length = duda.length ∧
    ∀ i (h1 : i < (fix_scientific_notation_ids duda crm).length) (h2 : i < duda.length),
      ((fix_scientific_notation_ids duda crm).get ⟨i, h1⟩).siteAlias =
        (duda.get ⟨i, h2⟩).siteAlias ∨
      ∃ c ∈ crm, ((fix_scientific_notation_ids duda crm).get ⟨i, h1⟩).siteAlias =
        pyStrip c.siteIdDuda := by
  by_cases hsnap : (duda.filter fun r => sciMatch r.siteAlias).isEmpty
  · have hfix : fix_scientific_notation_ids duda crm = duda := by
      simp only [fix_scientific_notation_ids, hsnap, if_true]
    rw [hfix]
    exact ⟨rfl, fun i h1 h2 => Or.inl rfl⟩
  · have hfix : fix_scientific_notation_ids duda crm =
        ((duda.filter fun r => sciMatch r.siteAlias).foldl (stepRepair crm) (duda, [])).1 := by
      simp [fix_scientific_notation_ids, hsnap]
    rw [hfix]
    refine repair_fold_pointwise crm
      (fun b a => a.siteAlias = b.siteAlias ∨
        ∃ c ∈ crm, a.siteAlias = pyStrip c.siteIdDuda)
      ?_ _ ?_ (duda, []) duda rfl (fun i h1 h2 => Or.inl rfl)
    · intro x correct u _ hc a b hPba
      rw [bfFun_siteAlias, rwFun]
      split
      · next heqx =>
        obtain ⟨c, hcmem, hcid⟩ := hc
        exact Or.inr ⟨c, hcmem, by simpa using hcid⟩
      · exact hPba
    · intro r hr
      exact sciMatch_pyStrip _ (List.mem_filter.mp hr).2

/-- Witness for C5 (amended) at a concrete input: the unrepairable row of
the counterexample table keeps its original id. -/
theorem claim5_repaired_alias_origin_witness :
    ((fix_scientific_notation_ids c5Duda []).get ⟨0, by decide⟩).siteAlias =
        (c5Duda.get ⟨0, by decide⟩).siteAlias ∨
      ∃ c ∈ ([] : List CrmRow),
        ((fix_scientific_notation_ids c5Duda []).get ⟨0, by decide⟩).siteAlias =
          pyStrip c.siteIdDuda :=
  (claim5_repaired_alias_origin c5Duda []).2 0 (by decide) (by decide)

/-- A `find?` over a mapped list is unchanged when the map fixes every
element satisfying the predicate and preserves the predicate's value. -/
theorem find?_map_eq {α : Type} (f : α → α) (P : α → Bool)
    (hf : ∀ a, P (f a) = P a ∧ (P a = true → f a = a)) :
    ∀ t : List α, (t.map f).find? P = t.find? P := by
  intro t
  induction t with
  | nil => rfl
  | cons a t ih =>
    rw [List.map_cons]
    cases hPa : P a with
    | false =>
      rw [List.find?_cons_of_neg _ (by rw [(hf a).1, hPa]; exact Bool.false_ne_true),
        List.find?_cons_of_neg _ (by rw [hPa]; exact Bool.false_ne_true)]
      exact ih
    | true =>
      rw [List.find?_cons_of_pos _ (by rw [(hf a).1, hPa]),
        List.find?_cons_of_pos _ hPa, (hf a).2 hPa]

/-- The repair attempt depends on the current billing table only through
the donor lookup for the row's stripped alias. -/
theorem attemptRepair_congr (crm : List CrmRow) (t t' : List DudaRow) (row : DudaRow)
    (h : donorFor t' (pyStrip row.siteAlias) = donorFor t (pyStrip row.siteAlias)) :
    attemptRepair crm t' row = attemptRepair crm t row := by
  simp only [attemptRepair, repairSiteURL, h]

/-- The combined per-row effect of rewrite and backfill on the alias. -/
theorem bf_rw_alias (x correct u : String) (a : DudaRow) :
    (bfFun correct u (rwFun x correct a)).siteAlias =
      if a.siteAlias = x then correct else a.siteAlias := by
  rw [bfFun_siteAlias, rwFun]
  split <;> rfl

/-- A row matching neither the corrupted nor the corrected id is left
untouched by rewrite and backfill. -/
theorem bf_rw_eq_self (x correct u : String) (a : DudaRow)
    (hax : a.siteAlias ≠ x) (hac : a.siteAlias ≠ correct) :
    bfFun correct u (rwFun x correct a) = a := by
  rw [rwFun, if_neg hax, bfFun]
  have hcond : (a.siteAlias = correct && urlMissing a.siteURL) = false := by
    simp [hac]
  rw [if_neg (by simp [hac])]

/-- The repair loop maintains `RepInv` and `RepReplay` when every CRM id
strips to a non-scientific string. -/
theorem repair_fold_invariant (crm : List CrmRow) (D : List DudaRow)
    (H1 : ∀ c ∈ crm, sciMatch (pyStrip c.siteIdDuda) = false) :
    ∀ (l : List DudaRow) (st : List DudaRow × List String) (processed : List DudaRow),
      (∀ r ∈ l, sciMatch r.siteAlias = true) →
      (∀ r ∈ processed, sciMatch r.siteAlias = true) →
      RepInv D st → RepReplay crm st processed →
      RepInv D (l.foldl (stepRepair crm) st) ∧
      RepReplay crm (l.foldl (stepRepair crm) st) (processed ++ l) := by
  intro l
  induction l with
  | nil =>
    intro st processed _ _ hinv hrep
    rw [List.foldl_nil, List.append_nil]
    exact ⟨hinv, hrep⟩
  | cons r l ih =>
    intro st processed hl hproc hinv hrep
    rw [List.foldl_cons]
    have hr : sciMatch r.siteAlias = true := hl r (List.mem_cons_self _ _)
    have hl' : ∀ q ∈ l, sciMatch q.siteAlias = true :=
      fun q hq => hl q (List.mem_cons_of_mem _ hq)
    have hproc' : ∀ w ∈ processed ++ [r], sciMatch w.siteAlias = true := by
      intro w hw
      rcases List.mem_append.mp hw with hwp | hwr
      · exact hproc w hwp
      · rw [List.mem_singleton] at hwr; rw [hwr]; exact hr
    have happ : (processed ++ [r]) ++ l = processed ++ r :: l := by simp
    by_cases hcont : pyStrip r.siteAlias ∈ st.2
    · have hstepEq : stepRepair crm st r = st := by
        simp [stepRepair, hcont]
      rw [hstepEq]
      have hrep' : RepReplay crm st (processed ++ [r]) := by
        intro w hw hex
        rcases List.mem_append.mp hw with hwp | hwr
        · exact hrep w hwp hex
        · rw [List.mem_singleton] at hwr
          subst hwr
          obtain ⟨i, h1, halias⟩ := hex
          exact absurd halias (hinv.2.2.2 _ hcont i h1)
      have hres := ih st (processed ++ [r]) hl' hproc' hinv hrep'
      rw [happ] at hres
      exact hres
    · cases hatt : attemptRepair crm st.1 r with
      | none =>
        have hstepEq : stepRepair crm st r = st := by
          simp [stepRepair, hcont, hatt]
        rw [hstepEq]
        have hrep' : RepReplay crm st (processed ++ [r]) := by
          intro w hw hex
          rcases List.mem_append.mp hw with hwp | hwr
          · exact hrep w hwp hex
          · rw [List.mem_singleton] at hwr; rw [hwr]; exact hatt
        have hres := ih st (processed ++ [r]) hl' hproc' hinv hrep'
        rw [happ] at hres
        exact hres
      | some pr =>
        obtain ⟨correct, u⟩ := pr
        have hstepEq : stepRepair crm st r =
            (backfillURL correct u (rewriteAlias (pyStrip r.siteAlias) correct st.1),
              pyStrip r.siteAlias :: st.2) := by
          simp [stepRepair, hcont, hatt]
        rw [hstepEq]
        obtain ⟨c, hcmem, hcorr⟩ := attemptRepair_some crm st.1 r correct u hatt
        have hcorNonsci : sciMatch correct = false := by rw [hcorr]; exact H1 c hcmem
        have hxSci : sciMatch (pyStrip r.siteAlias) = true := sciMatch_pyStrip _ hr
        have hxc : correct ≠ pyStrip r.siteAlias := by
          intro e
          rw [e, hxSci] at hcorNonsci
          exact absurd hcorNonsci (by decide)
        set T2 := backfillURL correct u (rewriteAlias (pyStrip r.siteAlias) correct st.1)
          with hT2
        have hlen' : T2.length = st.1.length := by
          rw [hT2]; simp [backfillURL, rewriteAlias]
        have hget' : ∀ i (h1 : i < T2.length) (h1' : i < st.1.length),
            T2.get ⟨i, h1⟩ =
              bfFun correct u (rwFun (pyStrip r.siteAlias) correct (st.1.get ⟨i, h1'⟩)) := by
          intro i h1 h1'
          show (List.map (bfFun correct u)
              (List.map (rwFun (pyStrip r.siteAlias) correct) st.1)).get ⟨i, h1⟩ =
            bfFun correct u (rwFun (pyStrip r.siteAlias) correct (st.1.get ⟨i, h1'⟩))
          simp [List.get_map]
        have haliasNotX : ∀ i (h1 : i < T2.length),
            (T2.get ⟨i, h1⟩).siteAlias ≠ pyStrip r.siteAlias := by
          intro i h1
          have h1' : i < st.1.length := h1.trans_eq hlen'
          rw [hget' i h1 h1', bf_rw_alias]
          split
          · exact hxc
          · next hax => exact hax
        have hinv' : RepInv D (T2, pyStrip r.siteAlias :: st.2) := by
          refine ⟨hlen'.trans hinv.1, ?_, ?_, ?_⟩
          · intro i h1 h2 hsci
            have h1' : i < st.1.length := h1.trans_eq hlen'
            rw [hget' i h1 h1'] at hsci ⊢
            rw [bf_rw_alias] at hsci
            by_cases hax : (st.1.get ⟨i, h1'⟩).siteAlias = pyStrip r.siteAlias
            · rw [if_pos hax] at hsci
              rw [hsci] at hcorNonsci
              exact absurd hcorNonsci (by decide)
            · rw [if_neg hax] at hsci
              have hcN : (st.1.get ⟨i, h1'⟩).siteAlias ≠ correct := by
                intro e
                rw [← e, hsci] at hcorNonsci
                exact absurd hcorNonsci (by decide)
              rw [bf_rw_eq_self _ _ _ _ hax hcN]
              exact hinv.2.1 i h1' h2 hsci
          · intro y hy
            rcases List.mem_cons.mp hy with rfl | hyold
            · exact hxSci
            · exact hinv.2.2.1 y hyold
          · intro y hy i h1
            have h1' : i < st.1.length := h1.trans_eq hlen'
            rcases List.mem_cons.mp hy with rfl | hyold
            · exact haliasNotX i h1
            · have hySci := hinv.2.2.1 y hyold
              rw [hget' i h1 h1', bf_rw_alias]
              split
              · intro e
                rw [e, hySci] at hcorNonsci
                exact absurd hcorNonsci (by decide)
              · exact hinv.2.2.2 y hyold i h1'
        have hrep' : RepReplay crm (T2, pyStrip r.siteAlias :: st.2) (processed ++ [r]) := by
          intro w hw hex
          obtain ⟨i, h1, halias⟩ := hex
          have h1' : i < st.1.length := h1.trans_eq hlen'
          rw [hget' i h1 h1', bf_rw_alias] at halias
          rcases List.mem_append.mp hw with hwp | hwr
          · have hzSci : sciMatch (pyStrip w.siteAlias) = true :=
              sciMatch_pyStrip _ (hproc w hwp)
            have haz : (st.1.get ⟨i, h1'⟩).siteAlias = pyStrip w.siteAlias := by
              by_cases hax : (st.1.get ⟨i, h1'⟩).siteAlias = pyStrip r.siteAlias
              · rw [if_pos hax] at halias
                rw [halias, hzSci] at hcorNonsci
                exact absurd hcorNonsci (by decide)
              · rw [if_neg hax] at halias
                exact halias
            have hzx : pyStrip w.siteAlias ≠ pyStrip r.siteAlias := by
              intro e
              by_cases hax : (st.1.get ⟨i, h1'⟩).siteAlias = pyStrip r.siteAlias
              · rw [if_pos hax] at halias
                rw [halias, hzSci] at hcorNonsci
                exact absurd hcorNonsci (by decide)
              · exact hax (by rw [haz, e])
            have hzc : correct ≠ pyStrip w.siteAlias := by
              intro e
              rw [e, hzSci] at hcorNonsci
              exact absurd hcorNonsci (by decide)
            have hold := hrep w hwp ⟨i, h1', haz⟩
            have hdonor : donorFor T2 (pyStrip w.siteAlias) =
                donorFor st.1 (pyStrip w.siteAlias) := by
              rw [hT2]
              simp only [backfillURL, rewriteAlias, List.map_map, donorFor]
              apply find?_map_eq
              intro a
              constructor
              · by_cases haz' : a.siteAlias = pyStrip w.siteAlias
                · have hfa : (bfFun correct u ∘ rwFun (pyStrip r.siteAlias) correct) a = a := by
                    show bfFun correct u (rwFun (pyStrip r.siteAlias) correct a) = a
                    exact bf_rw_eq_self _ _ _ _ (by rw [haz']; exact hzx)
                      (by rw [haz']; exact fun e => hzc e.symm)
                  rw [hfa]
                · have hfa : ((bfFun correct u ∘ rwFun (pyStrip r.siteAlias) correct)
                      a).siteAlias ≠ pyStrip w.siteAlias := by
                    show (bfFun correct u
                      (rwFun (pyStrip r.siteAlias) correct a)).siteAlias ≠ pyStrip w.siteAlias
                    rw [bf_rw_alias]
                    split
                    · exact hzc
                    · exact haz'
                  simp only [decide_eq_false haz', decide_eq_false hfa, Bool.false_and]
              · intro hPa
                rw [Bool.and_eq_true] at hPa
                have haz' : a.siteAlias = pyStrip w.siteAlias := of_decide_eq_true hPa.1
                show bfFun correct u (rwFun (pyStrip r.siteAlias) correct a) = a
                exact bf_rw_eq_self _ _ _ _ (by rw [haz']; exact hzx)
                  (by rw [haz']; exact fun e => hzc e.symm)
            have hcongr := attemptRepair_congr crm st.1 T2 w hdonor
            exact hcongr.trans hold
          · rw [List.mem_singleton] at hwr
            rw [hwr] at halias
            exfalso
            by_cases hax : (st.1.get ⟨i, h1'⟩).siteAlias = pyStrip r.siteAlias
            · rw [if_pos hax] at halias
              exact hxc halias
            · rw [if_neg hax] at halias
              exact hax halias
        have hres := ih (T2, pyStrip r.siteAlias :: st.2) (processed ++ [r]) hl' hproc'
          hinv' hrep'
        rw [happ] at hres
        exact hres

/-- A repair pass over rows whose attempts all fail leaves the state
untouched. -/
theorem foldl_stepRepair_const (crm : List CrmRow) (T : List DudaRow) :
    ∀ (l : List DudaRow) (d : List String),
      (∀ r ∈ l, attemptRepair crm T r = none) →
      l.foldl (stepRepair crm) (T, d) = (T, d) := by
  intro l
  induction l with
  | nil => intro d _; rfl
  | cons r l ih =>
    intro d hall
    rw [List.foldl_cons]
    have hstep : stepRepair crm (T, d) r = (T, d) := by
      by_cases hcont : pyStrip r.siteAlias ∈ d
      · simp [stepRepair, hcont]
      · simp [stepRepair, hcont, hall r (List.mem_cons_self _ _)]
    rw [hstep]
    exact ih d (fun q hq => hall q (List.mem_cons_of_mem _ hq))

/-- C4 counterexample: with CRM ids that themselves match the
scientific-notation pattern, a second repair pass changes the table again
— `repair(repair(D, C), C) ≠ repair(D, C)`. -/
theorem claim4_counterexample :
    fix_scientific_notation_ids (fix_scientific_notation_ids c4Duda c4Crm) c4Crm ≠
      fix_scientific_notation_ids c4Duda c4Crm := by
  decide

/-- C4 (amended): identifier repair is idempotent provided no CRM
"Site-ID-Duda" strips to a string matching the scientific-notation
pattern and every billing "Site Alias" is whitespace-stripped;
`repair(repair(D, C), C) = repair(D, C)` then holds. -/
theorem claim4_repair_idempotent (duda : List DudaRow) (crm : List CrmRow)
    (H1 : ∀ c ∈ crm, sciMatch (pyStrip c.siteIdDuda) = false)
    (H2 : ∀ r ∈ duda, pyStrip r.siteAlias = r.siteAlias) :
    fix_scientific_notation_ids (fix_scientific_notation_ids duda crm) crm =
      fix_scientific_notation_ids duda crm := by
  by_cases hsnap : (duda.filter fun r => sciMatch r.siteAlias).isEmpty
  · have hfix : fix_scientific_notation_ids duda crm = duda := by
      simp only [fix_scientific_notation_ids, hsnap, if_true]
    rw [hfix]
    exact hfix
  · set ST := (duda.filter fun r => sciMatch r.siteAlias).foldl (stepRepair crm) (duda, [])
      with hST
    have hfix : fix_scientific_notation_ids duda crm = ST.1 := by
      simp [fix_scientific_notation_ids, hsnap, hST]
    have hsnapMem : ∀ r ∈ duda.filter (fun r => sciMatch r.siteAlias),
        sciMatch r.siteAlias = true := fun r hr => (List.mem_filter.mp hr).2
    have hinit : RepInv duda (duda, []) :=
      ⟨rfl, fun i h1 h2 _ => rfl, fun x hx => absurd hx (List.not_mem_nil x),
        fun x hx => absurd hx (List.not_mem_nil x)⟩
    have hrep0 : RepReplay crm (duda, []) [] :=
      fun w hw => absurd hw (List.not_mem_nil w)
    obtain ⟨hinvT, hrepT⟩ := repair_fold_invariant crm duda H1
      (duda.filter fun r => sciMatch r.siteAlias) (duda, []) [] hsnapMem
      (fun w hw => absurd hw (List.not_mem_nil w)) hinit hrep0
    rw [List.nil_append] at hrepT
    rw [hfix]
    by_cases hsnap2 : (ST.1.filter fun r => sciMatch r.siteAlias).isEmpty
    · simp only [fix_scientific_notation_ids, hsnap2, if_true]
    · have hall : ∀ r ∈ ST.1.filter (fun r => sciMatch r.siteAlias),
          attemptRepair crm ST.1 r = none := by
        intro r hr
        have hrT : r ∈ ST.1 := (List.mem_filter.mp hr).1
        have hrSci : sciMatch r.siteAlias = true := (List.mem_filter.mp hr).2
        obtain ⟨n, hget⟩ := List.mem_iff_get.mp hrT
        have hn2 : n.1 < duda.length := by rw [← hinvT.1]; exact n.2
        have hprist : ST.1.get n = duda.get ⟨n.1, hn2⟩ := by
          apply hinvT.2.1 n.1 n.2 hn2
          rw [show ST.1.get ⟨n.1, n.2⟩ = r from hget]
          exact hrSci
        have hrD : r ∈ duda := by
          rw [← hget, hprist]
          exact List.get_mem duda _ _
        have hstrip : pyStrip r.siteAlias = r.siteAlias := H2 r hrD
        apply hrepT r (List.mem_filter.mpr ⟨hrD, hrSci⟩)
        refine ⟨n.1, n.2, ?_⟩
        rw [hstrip]
        exact congrArg DudaRow.siteAlias hget
      have hfix2 : fix_scientific_notation_ids ST.1 crm =
          ((ST.1.filter fun r => sciMatch r.siteAlias).foldl (stepRepair crm) (ST.1, [])).1 := by
        simp [fix_scientific_notation_ids, hsnap2]
      rw [hfix2, foldl_stepRepair_const crm ST.1 _ [] hall]

/-- Witness for C4 (amended) at a concrete input: one corrupted row, a
CRM table whose id is a plain hex string — the repair resolves it and a
second pass is a no-op. -/
theorem claim4_repair_idempotent_witness :
    fix_scientific_notation_ids
        (fix_scientific_notation_ids
          [{ siteAlias := "1e+1", siteURL := some "https://a.com",
             chargeFrequency := some "DudaOne Monthly", unpublicationDate := none,
             shouldCharge := 1, rest := [] }]
          [{ siteIdDuda := "deadbeef", workflowStatus := some "Website online",
             domain := some "a.com", projektname := some "P1", landingpageId := none }])
        [{ siteIdDuda := "deadbeef", workflowStatus := some "Website online",
           domain := some "a.com", projektname := some "P1", landingpageId := none }] =
      fix_scientific_notation_ids
        [{ siteAlias := "1e+1", siteURL := some "https://a.com",
           chargeFrequency := some "DudaOne Monthly", unpublicationDate := none,
           shouldCharge := 1, rest := [] }]
        [{ siteIdDuda := "deadbeef", workflowStatus := some "Website online",
           domain := some "a.com", projektname := some "P1", landingpageId := none }] :=
  claim4_repair_idempotent _ _ (by decide) (by decide)

/-- C1: for a workflow status that contains "offline" or "gekündigt"
(the source's spelling of "terminated") but not "website online", and an
unpublication date that `days_since_date` parses to `n` days, the status-OK
predicate holds exactly when `n ≤ 31`; in particular `n = 31` gives `True`
and `n = 32` gives `False`. -/
theorem claim1_status_ok_grace_boundary (now : Int) (st : String) (unpub : Option String)
    (n : Int)
    (hkw : (strContains (lowerStr st) "offline" ||
            strContains (lowerStr st) "gekündigt") = true)
    (hon : strContains (lowerStr st) "website online" = false)
    (hdays : days_since_date now unpub = some n) :
    is_status_ok now (some st) unpub = true ↔ n ≤ 31 := by
  obtain ⟨u, rfl⟩ : ∃ u, unpub = some u := by
    cases unpub with
    | none => simp [days_since_date] at hdays
    | some u => exact ⟨u, rfl⟩
  have hu : u ≠ "" := by
    rintro rfl
    simp [days_since_date, pyStrip, stripList] at hdays
  rw [is_status_ok]
  simp [hon, hkw, hu, hdays]

/-- Witness for C1 at a concrete input: on 2024-07-02, a site unpublished
on 2024-06-01 is exactly 31 days offline and an "offline" status is OK. -/
theorem claim1_status_ok_grace_boundary_witness :
    days_since_date (dtMicros ⟨2024, 7, 2, 0, 0, 0, 0⟩) (some "2024-06-01") = some 31 ∧
    is_status_ok (dtMicros ⟨2024, 7, 2, 0, 0, 0, 0⟩) (some "Projekt offline")
      (some "2024-06-01") = true :=
  ⟨by decide,
   (claim1_status_ok_grace_boundary (dtMicros ⟨2024, 7, 2, 0, 0, 0, 0⟩) "Projekt offline"
      (some "2024-06-01") 31 (by decide) (by decide) (by decide)).mpr (by decide)⟩

end Duda
